import Mathlib

/-!
Shallow embedding of the ScatterPilot conversational invoice core.

Sources embedded (python):
- scatterpilot/layers/common/common/models.py
    (LineItem, InvoiceData and its derived monetary fields, Conversation,
     ConversationState, RateLimit)
- scatterpilot/layers/common/common/bedrock_client.py
    (BedrockClient._extract_json_from_response,
     BedrockClient.validate_and_parse_invoice_data,
     BedrockClient.process_conversation_turn)
- scatterpilot/layers/common/common/dynamodb_helper.py
    (DynamoDBHelper.check_and_reset_monthly_count and the store calls the
     handler makes, modelled as oracle outcomes plus an effect trace)
- scatterpilot/functions/bedrock/conversation.py (handler)

Modelling conventions:
- python Decimal is modelled as Rat.  Decimal addition, subtraction and
  multiplication are exact; only the division in tax_amount rounds (at 28
  significant digits) in python, which is exact on the concrete inputs used
  below.
- calendar dates are modelled as Int day numbers; timedelta(days = n) is
  addition of n.
- datetimes used by the rate limiter are Int seconds.
- stdlib parsers (json.loads, Decimal(str(...)), date.fromisoformat) and the
  external collaborators (Bedrock, DynamoDB) are oracles carried in an Env
  record; each store call outcome is an Except value and every successful
  write is recorded in an Effect trace so that ordering and absence of side
  effects are provable.
-/

/-- Whitespace characters stripped by python str.strip (space, tab, newline,
carriage return, vertical tab, form feed). -/
def isPySpace (c : Char) : Bool :=
  c == ' ' || c == '\t' || c == '\n' || c == '\r' || c == '\x0b' || c == '\x0c'

/-- Prefix test on character lists (first argument is the pattern). -/
def startsWithL : List Char → List Char → Bool
  | [], _ => true
  | _ :: _, [] => false
  | p :: ps, c :: cs => p == c && startsWithL ps cs

/-- python str.strip(): remove leading and trailing whitespace. -/
def pyStrip (s : String) : String :=
  ⟨((s.data.dropWhile isPySpace).reverse.dropWhile isPySpace).reverse⟩

/-- python str.startswith. -/
def pyStartsWith (s pre : String) : Bool :=
  startsWithL pre.data s.data

/-- python str.endswith. -/
def pyEndsWith (s suf : String) : Bool :=
  startsWithL suf.data.reverse s.data.reverse

/-- python slicing s[n:]. -/
def pyDropLeft (s : String) (n : Nat) : String :=
  ⟨s.data.drop n⟩

/-- python slicing s[:-n]. -/
def pyDropRight (s : String) (n : Nat) : String :=
  ⟨s.data.take (s.data.length - n)⟩

/-- A JSON value as produced by json.loads. -/
inductive Json where
  | obj (fields : List (String × Json))
  | arr (elems : List Json)
  | str (s : String)
  | num (q : Rat)
  | bool (b : Bool)
  | null

/-- Key lookup on a JSON object, none on any other shape (dict.get). -/
def Json.get (k : String) : Json → Option Json
  | .obj fields => fields.lookup k
  | _ => none

/-- Membership test for a key: isinstance(data, dict) and k in data. -/
def Json.hasKey (k : String) : Json → Bool
  | .obj fields => fields.any (fun f => f.1 == k)
  | _ => false

/-- Does this optional JSON value equal the given string? Models
comparisons such as extracted_data.get('action') == 'create_invoice'. -/
def optIsStr (v : Option Json) (s : String) : Bool :=
  match v with
  | some (.str t) => t == s
  | _ => false

/-- A raw field of the extracted payload: the key can be absent (KeyError on
access), present but unparsable by the relevant stdlib parser, or parsed. -/
inductive RawVal (α : Type) where
  | absent : RawVal α
  | bad : RawVal α
  | ok : α → RawVal α
deriving DecidableEq, Repr

/-- One entry of the raw line_items list.  The taxable key is part of the raw
payload; whether the validator reads it is a property proved below. -/
structure RawLineItem where
  description : RawVal String
  quantity : RawVal Rat
  unit_price : RawVal Rat
  taxable : RawVal Bool
deriving DecidableEq, Repr

/-- The nested data object of a create_invoice payload, as the dict that
validate_and_parse_invoice_data reads.  line_items models
invoice_dict.get('line_items', []): an absent key is the empty list (a
present non-list value raises in python and is outside this shape). -/
structure RawPayload where
  customer_name : RawVal String
  customer_email : Option String
  customer_address : Option String
  invoice_date : RawVal Int
  due_date : RawVal Int
  line_items : List RawLineItem
  tax_rate : RawVal Rat
  discount : RawVal Rat
  notes : Option String
deriving DecidableEq, Repr

/-- models.py LineItem (pydantic).  bedrock_client constructs it without the
taxable keyword, so pydantic fills the declared default. -/
structure LineItem where
  description : String
  quantity : Rat
  unit_price : Rat
  taxable : Bool := true
deriving DecidableEq, Repr

/-- LineItem.total: quantity * unit_price. -/
def LineItem.total (it : LineItem) : Rat := it.quantity * it.unit_price

/-- models.py InvoiceData (pydantic), with dates as day numbers. -/
structure InvoiceData where
  customer_name : String
  customer_email : Option String
  customer_address : Option String
  invoice_date : Int
  due_date : Int
  line_items : List LineItem
  tax_rate : Rat
  discount : Rat
  notes : Option String
deriving DecidableEq, Repr

/-- InvoiceData.subtotal: sum of line totals. -/
def InvoiceData.subtotal (d : InvoiceData) : Rat :=
  (d.line_items.map LineItem.total).sum

/-- InvoiceData.taxable_subtotal: sum of line totals of items whose taxable
flag is true. -/
def InvoiceData.taxable_subtotal (d : InvoiceData) : Rat :=
  ((d.line_items.filter (fun it => it.taxable)).map LineItem.total).sum

/-- InvoiceData.tax_amount: tax on the taxable items net of the
proportionally allocated discount. -/
def InvoiceData.tax_amount (d : InvoiceData) : Rat :=
  if d.subtotal = 0 then 0
  else
    let taxable_share := if 0 < d.subtotal then d.taxable_subtotal / d.subtotal else 0
    (d.taxable_subtotal - d.discount * taxable_share) * d.tax_rate

/-- InvoiceData.total: subtotal - discount + tax_amount. -/
def InvoiceData.total (d : InvoiceData) : Rat :=
  d.subtotal - d.discount + d.tax_amount

/-- The three failure messages of validate_and_parse_invoice_data:
KeyError becomes "Missing required field", ValueError (including pydantic
validation) becomes "Invalid data format", any other exception becomes
"Failed to parse invoice data". -/
inductive VErr where
  | missingField (f : String)
  | invalidData
  | parseFailed
deriving DecidableEq, Repr

/-- item[name] followed by Decimal(str(...)): KeyError on an absent key,
decimal.InvalidOperation (a non-ValueError) on an unparsable value. -/
def getDecimal (name : String) : RawVal Rat → Except VErr Rat
  | .absent => .error (.missingField name)
  | .bad => .error .parseFailed
  | .ok q => .ok q

/-- invoice_dict[name] followed by date.fromisoformat: KeyError on an absent
key, ValueError on a malformed date string. -/
def getDate (name : String) : RawVal Int → Except VErr Int
  | .absent => .error (.missingField name)
  | .bad => .error .invalidData
  | .ok d => .ok d

/-- item[name] for a string-valued key: KeyError on an absent key. -/
def getStr (name : String) : RawVal String → Except VErr String
  | .absent => .error (.missingField name)
  | .bad => .error .parseFailed
  | .ok s => .ok s

/-- Decimal(str(invoice_dict.get(name, '0.00'))): an absent key defaults to
zero, an unparsable value raises decimal.InvalidOperation. -/
def getOptDecimal : RawVal Rat → Except VErr Rat
  | .absent => .ok 0
  | .bad => .error .parseFailed
  | .ok q => .ok q

/-- The pydantic field constraints of LineItem: description length in
[1, 500], quantity > 0, unit_price >= 0. -/
@[reducible] def LineItemOk (desc : String) (qty price : Rat) : Prop :=
  1 ≤ desc.length ∧ desc.length ≤ 500 ∧ 0 < qty ∧ 0 ≤ price

/-- Constructing a pydantic LineItem: the description is stripped after
validation; a constraint failure is a pydantic ValidationError, i.e. a
ValueError.  The taxable keyword is not passed by the caller in
bedrock_client, so the declared default true is used. -/
def mkLineItem (desc : String) (qty price : Rat) : Except VErr LineItem :=
  if LineItemOk desc qty price then
    .ok { description := pyStrip desc, quantity := qty, unit_price := price, taxable := true }
  else .error .invalidData

/-- The line-item loop of validate_and_parse_invoice_data: per item, in
evaluation order, item['description'], Decimal(str(item['quantity'])),
Decimal(str(item['unit_price'])), then the pydantic LineItem validation. -/
def parseLineItems : List RawLineItem → Except VErr (List LineItem)
  | [] => .ok []
  | it :: rest => do
    let desc ← getStr "description" it.description
    let qty ← getDecimal "quantity" it.quantity
    let price ← getDecimal "unit_price" it.unit_price
    let li ← mkLineItem desc qty price
    let tl ← parseLineItems rest
    .ok (li :: tl)

/-- The pydantic field constraints of InvoiceData: customer_name length in
[1, 200], optional field length bounds, at least one line item, tax_rate in
[0, 1], discount >= 0, and the due_date field validator (due date not
before the invoice date). -/
@[reducible] def InvoiceDataOk (name : String) (email addr : Option String)
    (idate ddate : Int) (items : List LineItem) (tax disc : Rat)
    (notes : Option String) : Prop :=
  1 ≤ name.length ∧ name.length ≤ 200
    ∧ email.all (fun s => s.length ≤ 254)
    ∧ addr.all (fun s => s.length ≤ 500)
    ∧ items ≠ []
    ∧ 0 ≤ tax ∧ tax ≤ 1
    ∧ 0 ≤ disc
    ∧ notes.all (fun s => s.length ≤ 1000)
    ∧ idate ≤ ddate

/-- Constructing a pydantic InvoiceData: any constraint failure is a
ValidationError, i.e. a ValueError. -/
def mkInvoiceData (name : String) (email addr : Option String)
    (idate ddate : Int) (items : List LineItem) (tax disc : Rat)
    (notes : Option String) : Except VErr InvoiceData :=
  if InvoiceDataOk name email addr idate ddate items tax disc notes then
    .ok { customer_name := name, customer_email := email, customer_address := addr,
          invoice_date := idate, due_date := ddate, line_items := items,
          tax_rate := tax, discount := disc, notes := notes }
  else .error .invalidData

/-- BedrockClient.validate_and_parse_invoice_data on the nested data dict,
with today = date.today().  Mirrors the source order: line items, both
dates, the backdating correction (invoice_date more than 90 days in the
past becomes today), the date-order correction (due_date before the
corrected invoice_date becomes invoice_date + 30 days), the far-future due
date (logged only, never corrected), then the InvoiceData construction
whose keyword arguments are evaluated in order: customer_name (KeyError if
absent), the optional fields, tax_rate and discount via
Decimal(str(...get(..., '0.00'))), and finally the pydantic validation. -/
def validate_and_parse_invoice_data (today : Int) (p : RawPayload) :
    Except VErr InvoiceData := do
  let items ← parseLineItems p.line_items
  let invoice_date0 ← getDate "invoice_date" p.invoice_date
  let due_date0 ← getDate "due_date" p.due_date
  let invoice_date := if invoice_date0 < today - 90 then today else invoice_date0
  let due_date := if due_date0 < invoice_date then invoice_date + 30 else due_date0
  let customer_name ← getStr "customer_name" p.customer_name
  let tax_rate ← getOptDecimal p.tax_rate
  let discount ← getOptDecimal p.discount
  mkInvoiceData customer_name p.customer_email p.customer_address
    invoice_date due_date items tax_rate discount p.notes

/-- The whitespace / code-fence stripping of _extract_json_from_response:
strip, drop a leading three-backtick-json or three-backtick marker, drop a
trailing three-backtick marker, strip again. -/
def cleanResponse (response : String) : String :=
  let json_str := pyStrip response
  let json_str := if pyStartsWith json_str "```json" then pyDropLeft json_str 7 else json_str
  let json_str := if pyStartsWith json_str "```" then pyDropLeft json_str 3 else json_str
  let json_str := if pyEndsWith json_str "```" then pyDropRight json_str 3 else json_str
  pyStrip json_str

/-- BedrockClient._extract_json_from_response, with json.loads as the parse
oracle (none models json.JSONDecodeError).  A strict parse is attempted only
when the cleaned text begins with an opening brace; a parsed value is
returned only when it is a dict containing an 'action' key; every other
path returns none, and the function is total (never raises). -/
def _extract_json_from_response (parse : String → Option Json)
    (response : String) : Option Json :=
  let json_str := cleanResponse response
  if pyStartsWith json_str "\x7b" then
    match parse json_str with
    | some data => if data.hasKey "action" then some data else none
    | none => none
  else none

/-! ### Concrete inputs for the validator claims -/

/-- The claim C1 scenario payload: line items qty 2 at 100 taxable and qty 1
at 50 not taxable, tax_rate 0.10, discount 30, with valid dates. -/
def payloadC1 : RawPayload :=
  { customer_name := .ok "Acme", customer_email := none, customer_address := none,
    invoice_date := .ok 0, due_date := .ok 30,
    line_items := [
      { description := .ok "A", quantity := .ok 2, unit_price := .ok 100, taxable := .ok true },
      { description := .ok "B", quantity := .ok 1, unit_price := .ok 50, taxable := .ok false }],
    tax_rate := .ok (mkRat 1 10), discount := .ok 30, notes := none }

/-- What the source code actually produces on payloadC1: the raw taxable
flags are dropped, every parsed item is taxable. -/
def resultC1 : InvoiceData :=
  { customer_name := "Acme", customer_email := none, customer_address := none,
    invoice_date := 0, due_date := 30,
    line_items := [
      { description := "A", quantity := 2, unit_price := 100, taxable := true },
      { description := "B", quantity := 1, unit_price := 50, taxable := true }],
    tax_rate := mkRat 1 10, discount := 30, notes := none }

/-! ### Claim C1 -/

/-- C1 (code bug evidence): the source builds each LineItem without the
taxable keyword, so the raw taxable flags of payloadC1 are not carried into
the validated InvoiceData: every parsed item ends up taxable, and the
derived fields are taxable_subtotal 250, tax_amount 22 and total 242 —
not the 200 / 17.60 / 237.60 required by the claim. -/
theorem c1_taxable_flag_dropped :
    validate_and_parse_invoice_data 0 payloadC1 = .ok resultC1
    ∧ resultC1.line_items.all (fun it => it.taxable) = true
    ∧ resultC1.taxable_subtotal = 250
    ∧ resultC1.tax_amount = 22
    ∧ resultC1.total = 242 := by
  refine ⟨rfl, by decide, ?_, ?_, ?_⟩ <;>
    norm_num [resultC1, InvoiceData.total, InvoiceData.tax_amount,
      InvoiceData.taxable_subtotal, InvoiceData.subtotal, LineItem.total,
      Rat.mkRat_eq_div]

/-! ### Claim C7 -/

/-- C7: _extract_json_from_response strips whitespace and code fences via
cleanResponse, attempts a parse only when the cleaned text begins with an
opening brace, returns none (and, being a total function, never raises) on
any parse failure, and returns a parsed value only when it is a dict
containing an 'action' key. -/
theorem c7_extractor_contract (parse : String → Option Json) (s : String) :
    (pyStartsWith (cleanResponse s) "\x7b" = false →
      _extract_json_from_response parse s = none)
    ∧ (parse (cleanResponse s) = none → _extract_json_from_response parse s = none)
    ∧ (∀ d, _extract_json_from_response parse s = some d →
        parse (cleanResponse s) = some d ∧ d.hasKey "action" = true) := by
  refine ⟨fun h => ?_, fun h => ?_, fun d h => ?_⟩
  · simp [_extract_json_from_response, h]
  · simp only [_extract_json_from_response, h]
    split <;> rfl
  · simp only [_extract_json_from_response] at h
    split at h
    · cases hp : parse (cleanResponse s)
      · simp [hp] at h
      · rename_i data
        rw [hp] at h
        by_cases hk : Json.hasKey "action" data = true
        · simp only [hk, if_true] at h
          cases h
          exact ⟨rfl, hk⟩
        · simp [hk] at h
    · simp at h

/-- A json.loads oracle for the witness: the text is not JSON. -/
def parseNoneOracle : String → Option Json := fun _ => none

/-- C7 witness: a plain conversational reply extracts to none. -/
theorem c7_extractor_contract_witness :
    _extract_json_from_response parseNoneOracle "Sure, happy to help!" = none :=
  (c7_extractor_contract parseNoneOracle "Sure, happy to help!").1 (by decide)

/-! ### Claim C5 -/

/-- When the raw due date is before the corrected invoice date, the
correction yields invoice_date + 30 which is never before the invoice
date, so the pydantic due-date validator always passes. -/
theorem corrected_due_not_before (idate ddate : Int) :
    idate ≤ (if ddate < idate then idate + 30 else ddate) := by
  split <;> omega

/-- Whether the final InvoiceData construction succeeds does not depend on
the raw due date, because the date-order correction guarantees the only
due-date constraint. -/
theorem mkInvoiceData_isOk_due_indep (nm : String) (email addr : Option String)
    (ci : Int) (items : List LineItem) (tax disc : Rat) (notes : Option String)
    (v w : Int)
    (h : (mkInvoiceData nm email addr ci (if v < ci then ci + 30 else v)
        items tax disc notes).isOk = true) :
    (mkInvoiceData nm email addr ci (if w < ci then ci + 30 else w)
        items tax disc notes).isOk = true := by
  unfold mkInvoiceData at h ⊢
  by_cases hC : InvoiceDataOk nm email addr ci (if v < ci then ci + 30 else v) items tax disc notes
  · rw [if_pos ?_]
    · rfl
    · unfold InvoiceDataOk at hC ⊢
      obtain ⟨h1, h2, h3, h4, h5, h6, h7, h8, h9, _⟩ := hC
      exact ⟨h1, h2, h3, h4, h5, h6, h7, h8, h9, corrected_due_not_before _ _⟩
  · rw [if_neg hC] at h
    simp [Except.isOk, Except.toBool] at h


/-- C5: the date-order correction.  First part: whenever validation
succeeds and the raw due date was earlier than the (backdating-corrected)
invoice date, the validated due date equals the validated invoice date plus
30 days.  Second part: whether validation succeeds never depends on the due
date value, so a payload is never rejected on account of the date order. -/
theorem c5_due_date_correction (today : Int) (p : RawPayload) :
    (∀ d di dd, p.invoice_date = .ok di → p.due_date = .ok dd →
      dd < (if di < today - 90 then today else di) →
      validate_and_parse_invoice_data today p = .ok d →
      d.due_date = d.invoice_date + 30)
    ∧ (∀ v w,
        (validate_and_parse_invoice_data today { p with due_date := .ok v }).isOk = true →
        (validate_and_parse_invoice_data today { p with due_date := .ok w }).isOk = true) := by
  obtain ⟨name, email, addr, idate, ddate, items, tax, disc, notes⟩ := p
  constructor
  · intro d di dd hdi hdd hlt hok
    simp only at hdi hdd
    subst hdi hdd
    set ci : Int := if di < today - 90 then today else di with hci
    unfold validate_and_parse_invoice_data at hok
    simp only [getDate, bind, Except.bind, ← hci] at hok
    rw [if_pos hlt] at hok
    cases hitems : parseLineItems items <;> rw [hitems] at hok
    · simp at hok
    · cases name <;> simp only [getStr] at hok
      · simp at hok
      · simp at hok
      · cases tax <;> simp only [getOptDecimal] at hok
        case bad => simp at hok
        all_goals cases disc <;> simp only [getOptDecimal] at hok
        case ok.bad => simp at hok
        case absent.bad => simp at hok
        all_goals
          simp only [mkInvoiceData] at hok
        all_goals
          split at hok
          · cases hok
            simp
          · simp at hok
  · intro v w
    simp only
    unfold validate_and_parse_invoice_data
    simp only [getDate, bind, Except.bind]
    cases parseLineItems items
    case error => intro hok; simp [Except.isOk, Except.toBool] at hok
    case ok its =>
    cases idate
    case absent => intro hok; simp [Except.isOk, Except.toBool] at hok
    case bad => intro hok; simp [Except.isOk, Except.toBool] at hok
    case ok di =>
    cases name
    case absent => intro hok; simp [getStr, Except.isOk, Except.toBool] at hok
    case bad => intro hok; simp [getStr, Except.isOk, Except.toBool] at hok
    case ok nm =>
    simp only [getStr]
    cases tax
    case bad => intro hok; simp [getOptDecimal, Except.isOk, Except.toBool] at hok
    all_goals cases disc
    case ok.bad => intro hok; simp [getOptDecimal, Except.isOk, Except.toBool] at hok
    case absent.bad => intro hok; simp [getOptDecimal, Except.isOk, Except.toBool] at hok
    all_goals simp only [getOptDecimal]
    all_goals
      intro hok
      exact mkInvoiceData_isOk_due_indep _ _ _ _ _ _ _ _ _ _ hok

/-! ### Claim C6 -/

/-- Is this raw key absent? -/
def RawVal.isAbsent {α : Type} : RawVal α → Bool
  | .absent => true
  | _ => false

/-- A raw key that, when present, parses and satisfies the given
constraint. -/
def RawVal.presentOk {α : Type} (P : α → Bool) : RawVal α → Bool
  | .absent => true
  | .bad => false
  | .ok a => P a

/-- All present fields of this raw line item parse and are in range. -/
def RawLineItem.wfPresent (it : RawLineItem) : Bool :=
  it.description.presentOk (fun s => decide (1 ≤ s.length) && decide (s.length ≤ 500))
  && it.quantity.presentOk (fun q => decide (0 < q))
  && it.unit_price.presentOk (fun q => decide (0 ≤ q))

/-- All present fields of this raw payload parse and are in range, so the
only parse failures left are absent keys (and an empty line-item list). -/
def RawPayload.wfPresent (p : RawPayload) : Bool :=
  p.line_items.all RawLineItem.wfPresent
  && p.customer_name.presentOk (fun s => decide (1 ≤ s.length) && decide (s.length ≤ 200))
  && p.invoice_date.presentOk (fun _ => true)
  && p.due_date.presentOk (fun _ => true)
  && p.tax_rate.presentOk (fun q => decide (0 ≤ q) && decide (q ≤ 1))
  && p.discount.presentOk (fun q => decide (0 ≤ q))
  && p.customer_email.all (fun s => decide (s.length ≤ 254))
  && p.customer_address.all (fun s => decide (s.length ≤ 500))
  && p.notes.all (fun s => decide (s.length ≤ 1000))

/-- One of the per-item required keys is absent. -/
def RawLineItem.someFieldAbsent (it : RawLineItem) : Bool :=
  it.description.isAbsent || it.quantity.isAbsent || it.unit_price.isAbsent

/-- One of the keys whose absence raises a KeyError in
validate_and_parse_invoice_data is absent. -/
def RawPayload.requiredAbsent (p : RawPayload) : Bool :=
  p.customer_name.isAbsent || p.invoice_date.isAbsent || p.due_date.isAbsent
  || p.line_items.any RawLineItem.someFieldAbsent

/-- On a list of well-formed-when-present raw items, the line-item loop
fails with a missing-field error when some item has an absent required key
and succeeds otherwise. -/
theorem parseLineItems_wf (l : List RawLineItem)
    (hwf : l.all RawLineItem.wfPresent = true) :
    (l.any RawLineItem.someFieldAbsent = true →
      ∃ f, parseLineItems l = .error (.missingField f))
    ∧ (l.any RawLineItem.someFieldAbsent = false →
      ∃ items, parseLineItems l = .ok items) := by
  induction l with
  | nil => exact ⟨by simp, fun _ => ⟨[], rfl⟩⟩
  | cons it rest ih =>
    simp only [List.all_cons, Bool.and_eq_true] at hwf
    obtain ⟨hit, hrest⟩ := hwf
    obtain ⟨ih1, ih2⟩ := ih hrest
    obtain ⟨d, q, pr, tx⟩ := it
    simp only [RawLineItem.wfPresent, Bool.and_eq_true] at hit
    obtain ⟨⟨hd, hq⟩, hpr⟩ := hit
    cases d
    case absent =>
      constructor
      · exact fun _ => ⟨"description",
          by simp [parseLineItems, getStr, bind, Except.bind]⟩
      · intro hfalse
        simp [List.any_cons, RawLineItem.someFieldAbsent, RawVal.isAbsent] at hfalse
    case bad => simp [RawVal.presentOk] at hd
    case ok s =>
    simp only [RawVal.presentOk, Bool.and_eq_true, decide_eq_true_eq] at hd
    cases q
    case absent =>
      constructor
      · exact fun _ => ⟨"quantity",
          by simp [parseLineItems, getStr, getDecimal, bind, Except.bind]⟩
      · intro hfalse
        simp [List.any_cons, RawLineItem.someFieldAbsent, RawVal.isAbsent] at hfalse
    case bad => simp [RawVal.presentOk] at hq
    case ok qv =>
    simp only [RawVal.presentOk, decide_eq_true_eq] at hq
    cases pr
    case absent =>
      constructor
      · exact fun _ => ⟨"unit_price",
          by simp [parseLineItems, getStr, getDecimal, bind, Except.bind]⟩
      · intro hfalse
        simp [List.any_cons, RawLineItem.someFieldAbsent, RawVal.isAbsent] at hfalse
    case bad => simp [RawVal.presentOk] at hpr
    case ok pv =>
    simp only [RawVal.presentOk, decide_eq_true_eq] at hpr
    have hok : LineItemOk s qv pv := ⟨hd.1, hd.2, hq, hpr⟩
    constructor
    · intro hany
      have hrestany : rest.any RawLineItem.someFieldAbsent = true := by
        simpa [List.any_cons, RawLineItem.someFieldAbsent, RawVal.isAbsent] using hany
      obtain ⟨f, hf⟩ := ih1 hrestany
      exact ⟨f, by simp [parseLineItems, getStr, getDecimal, bind, Except.bind,
        mkLineItem, if_pos hok, hf]⟩
    · intro hfalse
      have hrestfalse : rest.any RawLineItem.someFieldAbsent = false := by
        simpa [List.any_cons, RawLineItem.someFieldAbsent, RawVal.isAbsent] using hfalse
      obtain ⟨items, hitems⟩ := ih2 hrestfalse
      exact ⟨LineItem.mk (pyStrip s) qv pv true :: items,
        by simp [parseLineItems, getStr, getDecimal, bind, Except.bind,
          mkLineItem, if_pos hok, hitems]⟩

/-- A payload that omits only invoice_date: every other required key is
present and valid. -/
def payloadC6 : RawPayload :=
  { customer_name := .ok "Acme", customer_email := none, customer_address := none,
    invoice_date := .absent, due_date := .ok 30,
    line_items := [
      { description := .ok "A", quantity := .ok 1, unit_price := .ok 10, taxable := .ok true }],
    tax_rate := .ok 0, discount := .ok 0, notes := none }

/-- C6 counterexample: the claim says a payload omitting only invoice_date
is not rejected for a missing field, but invoice_dict['invoice_date'] is a
bare key access, so the code rejects it with a missing-field error. -/
theorem c6_counterexample :
    validate_and_parse_invoice_data 0 payloadC6 =
      .error (.missingField "invoice_date") := rfl

/-- C6 amended: on payloads whose present fields are well formed,
validation rejects with a missing-field error exactly when customer_name,
invoice_date, due_date, or a line item's description / quantity /
unit_price is absent (so invoice_date is required, contrary to the claim);
an absent or empty line-items list instead yields an invalid-data error. -/
theorem c6_missing_field_amended (today : Int) (p : RawPayload)
    (hwf : p.wfPresent = true) :
    ((∃ f, validate_and_parse_invoice_data today p = .error (.missingField f)) ↔
      p.requiredAbsent = true)
    ∧ (p.requiredAbsent = false → p.line_items = [] →
      validate_and_parse_invoice_data today p = .error .invalidData) := by
  obtain ⟨name, email, addr, idate, ddate, items, tax, disc, notes⟩ := p
  simp only [RawPayload.wfPresent, Bool.and_eq_true] at hwf
  obtain ⟨⟨⟨⟨⟨⟨⟨⟨hitems, hname⟩, hidate⟩, hddate⟩, htax⟩, hdisc⟩, hemail⟩, haddr⟩, hnotes⟩ := hwf
  obtain ⟨lem1, lem2⟩ := parseLineItems_wf items hitems
  simp only [RawPayload.requiredAbsent]
  by_cases hany : items.any RawLineItem.someFieldAbsent = true
  · obtain ⟨f, hf⟩ := lem1 hany
    refine ⟨⟨fun _ => by simp [hany], fun _ => ?_⟩, fun habs => ?_⟩
    · exact ⟨f, by simp [validate_and_parse_invoice_data, bind, Except.bind, hf]⟩
    · simp [hany] at habs
  · replace hany : items.any RawLineItem.someFieldAbsent = false := by
      simpa using hany
    obtain ⟨its, hits⟩ := lem2 hany
    simp only [validate_and_parse_invoice_data, bind, Except.bind, hits, hany,
      Bool.or_false]
    rcases idate with _ | _ | di
    · refine ⟨⟨fun _ => by simp [RawVal.isAbsent], fun _ => ?_⟩, fun habs => ?_⟩
      · exact ⟨"invoice_date", by simp [getDate]⟩
      · simp [RawVal.isAbsent] at habs
    · simp [RawVal.presentOk] at hidate
    rcases ddate with _ | _ | dd
    · refine ⟨⟨fun _ => by simp [RawVal.isAbsent], fun _ => ?_⟩, fun habs => ?_⟩
      · exact ⟨"due_date", by simp [getDate]⟩
      · simp [RawVal.isAbsent] at habs
    · simp [RawVal.presentOk] at hddate
    rcases name with _ | _ | nm
    · refine ⟨⟨fun _ => by simp [RawVal.isAbsent], fun _ => ?_⟩, fun habs => ?_⟩
      · exact ⟨"customer_name", by simp [getDate, getStr]⟩
      · simp [RawVal.isAbsent] at habs
    · simp [RawVal.presentOk] at hname
    have hterm : ∀ tv dv, ¬ ∃ f,
        (mkInvoiceData nm email addr (if di < today - 90 then today else di)
          (if dd < (if di < today - 90 then today else di)
            then (if di < today - 90 then today else di) + 30 else dd)
          its tv dv notes) = .error (.missingField f) := by
      intro tv dv hex
      obtain ⟨f, hf⟩ := hex
      unfold mkInvoiceData at hf
      by_cases hC : InvoiceDataOk nm email addr (if di < today - 90 then today else di)
          (if dd < (if di < today - 90 then today else di)
            then (if di < today - 90 then today else di) + 30 else dd)
          its tv dv notes
      · rw [if_pos hC] at hf
        cases hf
      · rw [if_neg hC] at hf
        cases hf
    have hterm2 : ∀ tv dv, its = [] →
        (mkInvoiceData nm email addr (if di < today - 90 then today else di)
          (if dd < (if di < today - 90 then today else di)
            then (if di < today - 90 then today else di) + 30 else dd)
          its tv dv notes) = .error .invalidData := by
      intro tv dv hnil
      subst hnil
      unfold mkInvoiceData
      rw [if_neg]
      intro hC
      exact hC.2.2.2.2.1 rfl
    have hempty : items = [] → its = [] := by
      intro hnil
      subst hnil
      cases hits
      rfl
    rcases tax with _ | _ | tq
    · rcases disc with _ | _ | dq
      · simp only [getDate, getStr, getOptDecimal]
        refine ⟨⟨fun hex => absurd hex (hterm _ _), fun habs => ?_⟩,
          fun _ hnil => hterm2 _ _ (hempty hnil)⟩
        simp [RawVal.isAbsent] at habs
      · simp [RawVal.presentOk] at hdisc
      · simp only [getDate, getStr, getOptDecimal]
        refine ⟨⟨fun hex => absurd hex (hterm _ _), fun habs => ?_⟩,
          fun _ hnil => hterm2 _ _ (hempty hnil)⟩
        simp [RawVal.isAbsent] at habs
    · simp [RawVal.presentOk] at htax
    · rcases disc with _ | _ | dq
      · simp only [getDate, getStr, getOptDecimal]
        refine ⟨⟨fun hex => absurd hex (hterm _ _), fun habs => ?_⟩,
          fun _ hnil => hterm2 _ _ (hempty hnil)⟩
        simp [RawVal.isAbsent] at habs
      · simp [RawVal.presentOk] at hdisc
      · simp only [getDate, getStr, getOptDecimal]
        refine ⟨⟨fun hex => absurd hex (hterm _ _), fun habs => ?_⟩,
          fun _ hnil => hterm2 _ _ (hempty hnil)⟩
        simp [RawVal.isAbsent] at habs

/-- A well-formed payload whose only flaw is an empty line-item list. -/
def payloadC6b : RawPayload :=
  { customer_name := .ok "Acme", customer_email := none, customer_address := none,
    invoice_date := .ok 0, due_date := .ok 30, line_items := [],
    tax_rate := .ok 0, discount := .ok 0, notes := none }

/-- C6 witness: an empty line-item list is rejected with the invalid-data
error, not a missing-field error. -/
theorem c6_missing_field_amended_witness :
    validate_and_parse_invoice_data 0 payloadC6b = .error .invalidData :=
  (c6_missing_field_amended 0 payloadC6b (by decide)).2 (by decide) rfl

/-- A payload whose raw due date (day 50) precedes its invoice date
(day 100). -/
def payloadC5 : RawPayload :=
  { customer_name := .ok "Acme", customer_email := none, customer_address := none,
    invoice_date := .ok 100, due_date := .ok 50,
    line_items := [
      { description := .ok "A", quantity := .ok 1, unit_price := .ok 10, taxable := .ok true }],
    tax_rate := .ok 0, discount := .ok 0, notes := none }

/-- What validation produces on payloadC5: the due date is silently
replaced by invoice_date + 30. -/
def resultC5 : InvoiceData :=
  { customer_name := "Acme", customer_email := none, customer_address := none,
    invoice_date := 100, due_date := 130,
    line_items := [{ description := "A", quantity := 1, unit_price := 10, taxable := true }],
    tax_rate := 0, discount := 0, notes := none }

/-- C5 witness: the concrete payload is not rejected and its validated due
date is the invoice date plus 30 days. -/
theorem c5_due_date_correction_witness :
    validate_and_parse_invoice_data 0 payloadC5 = .ok resultC5
    ∧ resultC5.due_date = resultC5.invoice_date + 30 := by
  have h : validate_and_parse_invoice_data 0 payloadC5 = .ok resultC5 := rfl
  exact ⟨h, (c5_due_date_correction 0 payloadC5).1 resultC5 100 50 rfl rfl (by decide) h⟩

/-! ### The conversation handler (conversation.py), with DynamoDB,
Bedrock and the stdlib parsers as oracles and an effect trace recording
every successful write and the model invocation. -/

/-- models.py ConversationState. -/
inductive ConversationState where
  | initiated
  | gathering_info
  | reviewing
  | completed
  | abandoned
deriving DecidableEq, Repr

/-- A conversation message (role and content; timestamps are not relevant
to any claim and are omitted). -/
structure Msg where
  role : String
  content : String
deriving DecidableEq, Repr

/-- models.py Conversation (timestamps omitted). -/
structure Conversation where
  conversation_id : String
  user_id : String
  state : ConversationState
  messages : List Msg
  extracted_data : Option Json

/-- Conversation.add_message: append-only. -/
def Conversation.add_message (c : Conversation) (role content : String) : Conversation :=
  { c with messages := c.messages ++ [{ role := role, content := content }] }

/-- models.py RateLimit, datetimes as Int seconds. -/
structure RateLimit where
  user_id : String
  request_count : Int
  window_start : Int
  ttl : Int
deriving DecidableEq, Repr

/-- RateLimit.create_new: a fresh window with count 1. -/
def RateLimit.create_new (user_id : String) (now window_seconds : Int) : RateLimit :=
  { user_id := user_id, request_count := 1, window_start := now,
    ttl := now + window_seconds }

/-- RateLimit.is_expired: elapsed >= window_seconds. -/
def RateLimit.is_expired (r : RateLimit) (now window_seconds : Int) : Bool :=
  decide (window_seconds ≤ now - r.window_start)

/-- security.py RateLimiter.check_limit: allow when the window expired,
otherwise require count < max. -/
def check_limit (max_requests window_seconds now current_count window_start : Int) : Bool :=
  if window_seconds ≤ now - window_start then true
  else decide (current_count < max_requests)

/-- The subscription record read by check_and_reset_monthly_count:
status string, monthly counter, and the month / year of
invoice_count_reset_at (none when that attribute is absent). -/
structure Subscription where
  subscription_status : String
  invoices_this_month : Int
  reset_month_year : Option (Int × Int)
deriving DecidableEq, Repr

/-- models.py Invoice as created by the handler (status is always DRAFT at
creation; pdf key and timestamps omitted). -/
structure Invoice where
  invoice_id : String
  user_id : String
  conversation_id : String
  data : InvoiceData

/-- The fields the handler puts into a success response body.  Fields a
branch does not set keep their defaults. -/
structure SuccessBody where
  conversation_id : String
  message : String
  invoice_ready : Bool := false
  usage_limit_reached : Bool := false
  cancelled : Bool := false
  invoice_id : Option String := none
  invoices_remaining : Option Int := none
  invoices_this_month : Option Int := none
  limit : Option Int := none
  upgrade_url : Option String := none

/-- An API Gateway response: create_error_response with its status code and
error type, or create_success_response. -/
inductive Response where
  | error (statusCode : Nat) (errorType : String)
  | success (body : SuccessBody)

/-- A DynamoDB ClientError (the store is unreachable or rejects the
call). -/
inductive StoreErr where
  | clientError
deriving DecidableEq, Repr

/-- Externally observable side effects of one handler invocation, in
order: successful writes to the store and the Bedrock model invocation. -/
inductive Effect where
  | putRateLimit (r : RateLimit)
  | putConversation (c : Conversation)
  | putSubscription (s : Subscription)
  | resetMonthlyCount (user_id : String)
  | putInvoice (inv : Invoice)
  | incMonthlyCount (user_id : String)
  | invokeModel

/-- The request body: an optional conversation_id and the message text. -/
structure Event where
  conversation_id : Option String
  message : String

/-- One invocation's collaborator outcomes: the authenticated user, clock
readings, the outcome of each store call the handler can make (each is
called at most once per invocation), the Bedrock call outcome, the stdlib
parser oracles, and the ids the uuid4 calls would generate. -/
structure Env where
  userId : Option String
  now : Int
  nowMonth : Int
  nowYear : Int
  today : Int
  rateMax : Int
  rateWindow : Int
  getRateLimit : Except StoreErr (Option RateLimit)
  putRateLimit : Except StoreErr Unit
  getConversation : Except StoreErr (Option Conversation)
  createConversation : Except StoreErr Unit
  updateConversation : Except StoreErr Unit
  newConversationId : String
  sanitize : String → Except Unit String
  converse : Except Unit String
  jsonParse : String → Option Json
  parseDec : String → Option Rat
  parseDate : String → Option Int
  getSubscription : Except StoreErr (Option Subscription)
  putSubscription : Except StoreErr Unit
  resetCount : Except StoreErr Unit
  createInvoice : Except StoreErr Unit
  incCount : Except StoreErr Unit
  newInvoiceId : String

/-- The rate-limit section of the handler (conversation.py lines 62-99):
read the record; inside an unexpired window either reject with 429 or
increment and write back; otherwise write a fresh window.  A store error
anywhere raises DynamoDBException, which the outer handler turns into a
500 DatabaseError. -/
def rate_limit_stage (env : Env) (user_id : String) :
    Except (Response × List Effect) (List Effect) :=
  match env.getRateLimit with
  | .error _ => .error (.error 500 "DatabaseError", [])
  | .ok (some r) =>
    if ¬ r.is_expired env.now env.rateWindow then
      if ¬ check_limit env.rateMax env.rateWindow env.now r.request_count r.window_start then
        .error (.error 429 "RateLimitExceeded", [])
      else
        match env.putRateLimit with
        | .error _ => .error (.error 500 "DatabaseError", [])
        | .ok _ => .ok [.putRateLimit { r with request_count := r.request_count + 1 }]
    else
      match env.putRateLimit with
      | .error _ => .error (.error 500 "DatabaseError", [])
      | .ok _ => .ok [.putRateLimit (RateLimit.create_new user_id env.now env.rateWindow)]
  | .ok none =>
    match env.putRateLimit with
    | .error _ => .error (.error 500 "DatabaseError", [])
    | .ok _ => .ok [.putRateLimit (RateLimit.create_new user_id env.now env.rateWindow)]

/-- Get-or-create of the conversation (lines 107-145): an existing id is
looked up (404 when missing, 403 when owned by another user); without an
id a fresh INITIATED conversation with no messages is created and
persisted immediately. -/
def conversation_stage (env : Env) (user_id : String) (event : Event) :
    Except (Response × List Effect) (Conversation × List Effect) :=
  match event.conversation_id with
  | some _ =>
    match env.getConversation with
    | .error _ => .error (.error 500 "DatabaseError", [])
    | .ok none => .error (.error 404 "NotFound", [])
    | .ok (some conversation) =>
      if conversation.user_id ≠ user_id then
        .error (.error 403 "Forbidden", [])
      else
        .ok (conversation, [])
  | none =>
    let conversation : Conversation :=
      { conversation_id := env.newConversationId, user_id := user_id,
        state := .initiated, messages := [], extracted_data := none }
    match env.createConversation with
    | .error _ => .error (.error 500 "DatabaseError", [])
    | .ok _ => .ok (conversation, [.putConversation conversation])

/-- Message validation (lines 147-161): strip, reject empty, sanitize. -/
def message_stage (env : Env) (event : Event) : Except Response String :=
  let user_message := pyStrip event.message
  if user_message = "" then .error (.error 400 "ValidationError")
  else
    match env.sanitize user_message with
    | .error _ => .error (.error 400 "ValidationError")
    | .ok m => .ok m

/-- BedrockClient.process_conversation_turn: append the user message to the
in-memory conversation only, invoke the model (a BedrockException becomes
the 500 BedrockError response of the handler's inner except), run the
extractor on the reply, append the assistant message in memory.  No store
write happens here. -/
def process_conversation_turn (env : Env) (conversation : Conversation)
    (user_message : String) :
    Except (Response × List Effect) ((String × Option Json × Conversation) × List Effect) :=
  let conv1 := conversation.add_message "user" user_message
  match env.converse with
  | .error _ => .error (.error 500 "BedrockError", [.invokeModel])
  | .ok assistant_message =>
    let extracted := _extract_json_from_response env.jsonParse assistant_message
    let conv2 := conv1.add_message "assistant" assistant_message
    .ok ((assistant_message, extracted, conv2), [.invokeModel])

/-- DynamoDBHelper.check_and_reset_monthly_count: read the subscription;
when missing, persist and return a default free record with count 0; when
the stored reset month / year differs from the current one, reset the
counter. -/
def check_and_reset_monthly_count (env : Env) (user_id : String) :
    Except (Response × List Effect) (Subscription × List Effect) :=
  match env.getSubscription with
  | .error _ => .error (.error 500 "DatabaseError", [])
  | .ok none =>
    match env.putSubscription with
    | .error _ => .error (.error 500 "DatabaseError", [])
    | .ok _ =>
      let s : Subscription :=
        { subscription_status := "free", invoices_this_month := 0,
          reset_month_year := some (env.nowMonth, env.nowYear) }
      .ok (s, [.putSubscription s])
  | .ok (some s) =>
    match s.reset_month_year with
    | some (m, y) =>
      if m ≠ env.nowMonth ∨ y ≠ env.nowYear then
        match env.resetCount with
        | .error _ => .error (.error 500 "DatabaseError", [])
        | .ok _ =>
          .ok ({ s with invoices_this_month := 0 }, [.resetMonthlyCount user_id])
      else .ok (s, [])
    | none => .ok (s, [])

/-- json -> raw decimal field: a JSON number round-trips exactly through
Decimal(str(...)); a string goes through the Decimal parser oracle; any
other shape makes Decimal raise. -/
def jsonToRatVal (parseDec : String → Option Rat) : Option Json → RawVal Rat
  | none => .absent
  | some (.num q) => .ok q
  | some (.str s) =>
    match parseDec s with
    | some q => .ok q
    | none => .bad
  | some _ => .bad

/-- json -> raw date field via the date.fromisoformat oracle.  A non-string
value raises in python; it is folded into the unparsable case here (no
claim depends on that corner). -/
def jsonToDateVal (parseDate : String → Option Int) : Option Json → RawVal Int
  | none => .absent
  | some (.str s) =>
    match parseDate s with
    | some d => .ok d
    | none => .bad
  | some _ => .bad

/-- json -> raw string field. -/
def jsonToStrVal : Option Json → RawVal String
  | none => .absent
  | some (.str s) => .ok s
  | some _ => .bad

/-- json -> raw boolean field (the taxable key). -/
def jsonToBoolVal : Option Json → RawVal Bool
  | none => .absent
  | some (.bool b) => .ok b
  | some _ => .bad

/-- json -> optional string field read with dict.get (None default); a
non-string value is folded to none (no claim depends on that corner). -/
def jsonToOptStr : Option Json → Option String
  | some (.str s) => some s
  | _ => none

/-- One raw line item read from its JSON dict; a non-dict entry raises on
the first key access, modelled by unparsable fields. -/
def jsonToRawLineItem (parseDec : String → Option Rat) : Json → RawLineItem
  | .obj fields =>
    { description := jsonToStrVal (fields.lookup "description"),
      quantity := jsonToRatVal parseDec (fields.lookup "quantity"),
      unit_price := jsonToRatVal parseDec (fields.lookup "unit_price"),
      taxable := jsonToBoolVal (fields.lookup "taxable") }
  | _ => { description := .bad, quantity := .bad, unit_price := .bad, taxable := .bad }

/-- The raw payload read from the fields of the nested data dict. -/
def toRawPayload (parseDec : String → Option Rat) (parseDate : String → Option Int)
    (fields : List (String × Json)) (items : List RawLineItem) : RawPayload :=
  { customer_name := jsonToStrVal (fields.lookup "customer_name"),
    customer_email := jsonToOptStr (fields.lookup "customer_email"),
    customer_address := jsonToOptStr (fields.lookup "customer_address"),
    invoice_date := jsonToDateVal parseDate (fields.lookup "invoice_date"),
    due_date := jsonToDateVal parseDate (fields.lookup "due_date"),
    line_items := items,
    tax_rate := jsonToRatVal parseDec (fields.lookup "tax_rate"),
    discount := jsonToRatVal parseDec (fields.lookup "discount"),
    notes := jsonToOptStr (fields.lookup "notes") }

/-- validate_and_parse_invoice_data applied to the extracted JSON object:
data.get('data', {}) with a non-dict value raising on the first attribute
access, line_items defaulting to [] and a non-list value raising when
iterated. -/
def validate_invoice_json (today : Int) (parseDec : String → Option Rat)
    (parseDate : String → Option Int) (data : Json) : Except VErr InvoiceData :=
  match data.get "data" with
  | some (.obj fields) =>
    match fields.lookup "line_items" with
    | some (.arr rawItems) =>
      validate_and_parse_invoice_data today
        (toRawPayload parseDec parseDate fields (rawItems.map (jsonToRawLineItem parseDec)))
    | none => validate_and_parse_invoice_data today (toRawPayload parseDec parseDate fields [])
    | some _ => .error .parseFailed
  | none => validate_and_parse_invoice_data today (toRawPayload parseDec parseDate [] [])
  | some _ => .error .parseFailed

/-- The free-tier cap (FREE_TIER_INVOICE_LIMIT). -/
def FREE_TIER_INVOICE_LIMIT : Int := 5

/-- The upgrade-prompt response text (emoji and line breaks of the source
string elided). -/
def upgrade_prompt_message : String :=
  "You have used all 5 free invoices this month! Upgrade to Pro for unlimited invoices at just $18/month."

/-- The validation-failure continuation text (the str(e) detail of the
source string elided). -/
def invalid_data_message : String :=
  "I found some issues with the data. We will fix that."

/-- The action interpretation of the handler (lines 174-286).  For
create_invoice: the quota check runs first; when a free-tier user has
reached the cap the conversation is marked COMPLETED, saved, and the
upgrade-prompt success response is returned with no invoice write and no
counter increment; otherwise validation either creates the invoice and
increments the counter or falls back to GATHERING_INFO.  cancel marks the
conversation ABANDONED; any other or no action continues GATHERING_INFO.
An early return travels on the error channel together with the effects
emitted so far. -/
def action_stage (env : Env) (user_id : String) (assistant_message : String)
    (extracted : Option Json) (conversation : Conversation) :
    Except (Response × List Effect) ((SuccessBody × Conversation) × List Effect) :=
  match extracted with
  | some data =>
    if optIsStr (data.get "action") "create_invoice" then
      match check_and_reset_monthly_count env user_id with
      | .error r => .error r
      | .ok (subscription, tr) =>
        let is_pro := subscription.subscription_status == "pro"
        let invoices_this_month := subscription.invoices_this_month
        if is_pro = false ∧ FREE_TIER_INVOICE_LIMIT ≤ invoices_this_month then
          let conv1 := { conversation with state := ConversationState.completed }
          match env.updateConversation with
          | .error _ => .error (.error 500 "DatabaseError", tr)
          | .ok _ =>
            .error (.success
              { conversation_id := conversation.conversation_id,
                message := upgrade_prompt_message,
                invoice_ready := false,
                usage_limit_reached := true,
                invoices_this_month := some invoices_this_month,
                limit := some FREE_TIER_INVOICE_LIMIT,
                upgrade_url := some "/pricing" },
              tr ++ [.putConversation conv1])
        else
          match validate_invoice_json env.today env.parseDec env.parseDate data with
          | .ok invoice_data =>
            let conv1 := { conversation with
              extracted_data := some data, state := ConversationState.completed }
            let invoice : Invoice :=
              { invoice_id := env.newInvoiceId, user_id := user_id,
                conversation_id := conversation.conversation_id, data := invoice_data }
            match env.createInvoice with
            | .error _ => .error (.error 500 "DatabaseError", tr)
            | .ok _ =>
              match env.incCount with
              | .error _ => .error (.error 500 "DatabaseError", tr ++ [.putInvoice invoice])
              | .ok _ =>
                let new_count := invoices_this_month + 1
                .ok (({ conversation_id := conversation.conversation_id,
                        message := assistant_message,
                        invoice_ready := true,
                        invoice_id := some invoice.invoice_id,
                        invoices_remaining :=
                          if is_pro then none
                          else some (FREE_TIER_INVOICE_LIMIT - new_count) },
                      conv1),
                     tr ++ [.putInvoice invoice, .incMonthlyCount user_id])
          | .error _ =>
            .ok (({ conversation_id := conversation.conversation_id,
                    message := invalid_data_message,
                    invoice_ready := false },
                  { conversation with state := ConversationState.gathering_info }),
                 tr)
    else if optIsStr (data.get "action") "cancel" then
      .ok (({ conversation_id := conversation.conversation_id,
              message := assistant_message,
              cancelled := true },
            { conversation with state := ConversationState.abandoned }),
           [])
    else
      .ok (({ conversation_id := conversation.conversation_id,
              message := assistant_message,
              invoice_ready := false },
            { conversation with state := ConversationState.gathering_info }),
           [])
  | none =>
    .ok (({ conversation_id := conversation.conversation_id,
            message := assistant_message,
            invoice_ready := false },
          { conversation with state := ConversationState.gathering_info }),
         [])

/-- conversation.py handler: auth, rate limit, get-or-create conversation,
message validation, the Bedrock turn, action interpretation, and the final
update_conversation save.  The result is the response together with the
ordered trace of successful store writes and the model invocation. -/
def handler (env : Env) (event : Event) : Response × List Effect :=
  match env.userId with
  | none => (.error 400 "ValidationError", [])
  | some user_id =>
    match rate_limit_stage env user_id with
    | .error r => r
    | .ok tr1 =>
      match conversation_stage env user_id event with
      | .error (resp, tr) => (resp, tr1 ++ tr)
      | .ok (conversation, tr2) =>
        match message_stage env event with
        | .error resp => (resp, tr1 ++ tr2)
        | .ok user_message =>
          match process_conversation_turn env conversation user_message with
          | .error (resp, tr) => (resp, tr1 ++ tr2 ++ tr)
          | .ok ((assistant_message, extracted, conv2), tr3) =>
            match action_stage env user_id assistant_message extracted conv2 with
            | .error (resp, tr) => (resp, tr1 ++ tr2 ++ tr3 ++ tr)
            | .ok ((body, conv3), tr4) =>
              match env.updateConversation with
              | .error _ => (.error 500 "DatabaseError", tr1 ++ tr2 ++ tr3 ++ tr4)
              | .ok _ =>
                (.success body, tr1 ++ tr2 ++ tr3 ++ tr4 ++ [.putConversation conv3])

/-- Membership in a takeWhile gives membership in the list. -/
theorem mem_of_takeWhile {α : Type} (p : α → Bool) (l : List α) (x : α)
    (h : x ∈ l.takeWhile p) : x ∈ l := by
  induction l with
  | nil => simp at h
  | cons a t ih =>
    rw [List.takeWhile_cons] at h
    by_cases hp : p a = true
    · rw [if_pos hp] at h
      rcases List.mem_cons.mp h with h1 | h2
      · exact h1 ▸ List.mem_cons_self _ _
      · exact List.mem_cons_of_mem _ (ih h2)
    · rw [if_neg hp] at h
      simp at h

/-- takeWhile never looks past the first failing element. -/
theorem takeWhile_append_stop {α : Type} (p : α → Bool) (A B : List α) (x : α)
    (hx : p x = false) :
    ((A ++ x :: B).takeWhile p) = A.takeWhile p := by
  induction A with
  | nil => simp [List.takeWhile_cons, hx]
  | cons a t ih =>
    rw [List.cons_append, List.takeWhile_cons, List.takeWhile_cons]
    split <;> simp [ih]

/-- The rate-limit section writes nothing when it fails. -/
theorem rate_limit_stage_error (env : Env) (user_id : String)
    (re : Response × List Effect)
    (h : rate_limit_stage env user_id = .error re) : re.2 = [] := by
  unfold rate_limit_stage at h
  split at h
  · cases h; rfl
  · split at h
    · split at h
      · cases h; rfl
      · split at h
        · cases h; rfl
        · cases h
    · split at h
      · cases h; rfl
      · cases h
  · split at h
    · cases h; rfl
    · cases h

/-- The rate-limit section emits only rate-limit writes. -/
theorem rate_limit_stage_ok_effects (env : Env) (user_id : String)
    (tr : List Effect) (h : rate_limit_stage env user_id = .ok tr) :
    ∀ e ∈ tr, ∃ r, e = Effect.putRateLimit r := by
  unfold rate_limit_stage at h
  split at h
  · cases h
  · split at h
    · split at h
      · cases h
      · split at h
        · cases h
        · cases h
          intro e he
          simp at he
          exact ⟨_, he⟩
    · split at h
      · cases h
      · cases h
        intro e he
        simp at he
        exact ⟨_, he⟩
  · split at h
    · cases h
    · cases h
      intro e he
      simp at he
      exact ⟨_, he⟩

/-- The conversation stage writes nothing when it fails. -/
theorem conversation_stage_error (env : Env) (user_id : String) (event : Event)
    (re : Response × List Effect)
    (h : conversation_stage env user_id event = .error re) : re.2 = [] := by
  unfold conversation_stage at h
  split at h
  · split at h
    · cases h; rfl
    · cases h; rfl
    · split at h
      · cases h; rfl
      · cases h
  · split at h
    · cases h; rfl
    · cases h

/-- Any conversation the conversation stage persists has no messages (it is
the freshly created INITIATED record). -/
theorem conversation_stage_ok_effects (env : Env) (user_id : String) (event : Event)
    (cv : Conversation) (tr : List Effect)
    (h : conversation_stage env user_id event = .ok (cv, tr)) :
    ∀ c, Effect.putConversation c ∈ tr → c.messages = [] := by
  unfold conversation_stage at h
  split at h
  · split at h
    · cases h
    · cases h
    · split at h
      · cases h
      · cases h
        intro c hc
        simp at hc
  · split at h
    · cases h
    · cases h
      intro c hc
      simp at hc
      subst hc
      rfl

/-- The turn stage's trace is exactly the model invocation (failure
case). -/
theorem process_conversation_turn_error (env : Env) (conversation : Conversation)
    (user_message : String) (re : Response × List Effect)
    (h : process_conversation_turn env conversation user_message = .error re) :
    re.2 = [Effect.invokeModel] := by
  unfold process_conversation_turn at h
  split at h
  · cases h; rfl
  · cases h

/-- The turn stage's trace is exactly the model invocation (success
case). -/
theorem process_conversation_turn_ok (env : Env) (conversation : Conversation)
    (user_message : String) (x : String × Option Json × Conversation)
    (tr : List Effect)
    (h : process_conversation_turn env conversation user_message = .ok (x, tr)) :
    tr = [Effect.invokeModel] := by
  unfold process_conversation_turn at h
  split at h
  · cases h
  · cases h; rfl

/-! ### Claim C9 -/

/-- C9: on an existing conversation owned by a different user the handler
returns 403 Forbidden, and the only effects are the rate-limit writes that
happen earlier: no conversation, invoice or quota record is touched, no
message is appended, and the model is never invoked. -/
theorem c9_foreign_conversation_forbidden (env : Env) (event : Event)
    (user_id cid : String) (tr1 : List Effect) (conversation : Conversation)
    (huser : env.userId = some user_id)
    (hrl : rate_limit_stage env user_id = .ok tr1)
    (hcid : event.conversation_id = some cid)
    (hconv : env.getConversation = .ok (some conversation))
    (hown : conversation.user_id ≠ user_id) :
    handler env event = (.error 403 "Forbidden", tr1)
    ∧ ∀ e ∈ tr1, ∃ r, e = Effect.putRateLimit r := by
  refine ⟨?_, rate_limit_stage_ok_effects env user_id tr1 hrl⟩
  have hcs : conversation_stage env user_id event =
      .error (.error 403 "Forbidden", []) := by
    unfold conversation_stage
    rw [hcid, hconv]
    simp [hown]
  simp only [handler, huser, hrl, hcs, List.append_nil]

/-! ### Claim C10 -/

/-- C10: without a conversation_id and with a message that is empty after
trimming, the handler returns a 400 validation error, but a fresh
INITIATED conversation with no messages has already been persisted. -/
theorem c10_create_before_empty_message_check (env : Env) (event : Event)
    (user_id : String) (tr1 : List Effect)
    (huser : env.userId = some user_id)
    (hrl : rate_limit_stage env user_id = .ok tr1)
    (hcid : event.conversation_id = none)
    (hcc : env.createConversation = .ok ())
    (hmsg : pyStrip event.message = "") :
    handler env event =
      (.error 400 "ValidationError",
       tr1 ++ [Effect.putConversation
         { conversation_id := env.newConversationId, user_id := user_id,
           state := .initiated, messages := [], extracted_data := none }]) := by
  have hcs : conversation_stage env user_id event =
      .ok ({ conversation_id := env.newConversationId, user_id := user_id,
             state := .initiated, messages := [], extracted_data := none },
           [Effect.putConversation
             { conversation_id := env.newConversationId, user_id := user_id,
               state := .initiated, messages := [], extracted_data := none }]) := by
    unfold conversation_stage
    rw [hcid, hcc]
  have hms : message_stage env event = .error (.error 400 "ValidationError") := by
    unfold message_stage
    rw [hmsg]
    simp
  simp only [handler, huser, hrl, hcs, hms]

/-! ### Claim C3 -/

/-- C3 amended: when the store is unreachable during the message rate check
(the rate-limit read, or the write recording a fresh window), the
DynamoDBException propagates to the outer handler, which fails closed: a
500 DatabaseError response with no side effects and no model invocation —
not a fail-open allow. -/
theorem c3_rate_check_fails_closed (env : Env) (event : Event) (user_id : String)
    (huser : env.userId = some user_id) :
    (env.getRateLimit = .error .clientError →
      handler env event = (.error 500 "DatabaseError", []))
    ∧ (env.getRateLimit = .ok none → env.putRateLimit = .error .clientError →
      handler env event = (.error 500 "DatabaseError", [])) := by
  constructor
  · intro hg
    have hrl : rate_limit_stage env user_id =
        .error (.error 500 "DatabaseError", []) := by
      unfold rate_limit_stage
      rw [hg]
    simp only [handler, huser, hrl]
  · intro hg hp
    have hrl : rate_limit_stage env user_id =
        .error (.error 500 "DatabaseError", []) := by
      unfold rate_limit_stage
      rw [hg, hp]
    simp only [handler, huser, hrl]

/-! ### Claim C4 -/

/-- C4 amended: the handler never consults the prior conversation state:
the new state is a function of the current turn's extracted action alone.
In particular a turn that extracts no structured action moves the
conversation to GATHERING_INFO from any prior state, including the
supposedly terminal COMPLETED and ABANDONED. -/
theorem c4_terminal_states_not_enforced (env : Env) (event : Event)
    (user_id cid : String) (tr1 : List Effect) (conversation : Conversation)
    (user_message assistant_message : String)
    (huser : env.userId = some user_id)
    (hrl : rate_limit_stage env user_id = .ok tr1)
    (hcid : event.conversation_id = some cid)
    (hconv : env.getConversation = .ok (some conversation))
    (hown : conversation.user_id = user_id)
    (hms : message_stage env event = .ok user_message)
    (hbed : env.converse = .ok assistant_message)
    (hext : _extract_json_from_response env.jsonParse assistant_message = none)
    (hup : env.updateConversation = .ok ()) :
    handler env event =
      (.success { conversation_id := conversation.conversation_id,
                  message := assistant_message, invoice_ready := false },
       tr1 ++ [Effect.invokeModel,
         Effect.putConversation
           { conversation with
             messages := conversation.messages ++
               [{ role := "user", content := user_message },
                { role := "assistant", content := assistant_message }],
             state := ConversationState.gathering_info }]) := by
  have hcs : conversation_stage env user_id event = .ok (conversation, []) := by
    unfold conversation_stage
    rw [hcid, hconv]
    simp [hown]
  have hturn : process_conversation_turn env conversation user_message =
      .ok ((assistant_message, none,
        (conversation.add_message "user" user_message).add_message
          "assistant" assistant_message), [Effect.invokeModel]) := by
    unfold process_conversation_turn
    rw [hbed]
    simp [hext]
  have hact : action_stage env user_id assistant_message none
      ((conversation.add_message "user" user_message).add_message
        "assistant" assistant_message) =
      .ok (({ conversation_id := conversation.conversation_id,
              message := assistant_message, invoice_ready := false },
            { conversation with
              messages := conversation.messages ++
                [{ role := "user", content := user_message },
                 { role := "assistant", content := assistant_message }],
              state := ConversationState.gathering_info }), []) := by
    unfold action_stage Conversation.add_message
    simp [List.append_assoc]
  simp only [handler, huser, hrl, hcs, hms, hturn, hact, hup, List.nil_append,
    List.append_nil, List.cons_append, List.append_assoc]

/-- The conversation stage emits only conversation writes. -/
theorem conversation_stage_ok_only_puts (env : Env) (user_id : String) (event : Event)
    (cv : Conversation) (tr : List Effect)
    (h : conversation_stage env user_id event = .ok (cv, tr)) :
    ∀ e ∈ tr, ∃ c, e = Effect.putConversation c := by
  unfold conversation_stage at h
  split at h
  · split at h
    · cases h
    · cases h
    · split at h
      · cases h
      · cases h
        intro e he
        simp at he
  · split at h
    · cases h
    · cases h
      intro e he
      simp at he
      exact ⟨_, he⟩

/-! ### Claim C2 -/

/-- C2: a free-tier user with 5 invoices already counted this calendar
month who produces a create_invoice action gets the upgrade-prompt success
response with the conversation saved as COMPLETED, and the trace contains
no invoice write and no counter increment. -/
theorem c2_quota_exhausted_rejects (env : Env) (event : Event)
    (user_id : String) (tr1 tr2 : List Effect) (conversation : Conversation)
    (user_message assistant_message : String) (data : Json) (s : Subscription)
    (huser : env.userId = some user_id)
    (hrl : rate_limit_stage env user_id = .ok tr1)
    (hcs : conversation_stage env user_id event = .ok (conversation, tr2))
    (hms : message_stage env event = .ok user_message)
    (hbed : env.converse = .ok assistant_message)
    (hext : _extract_json_from_response env.jsonParse assistant_message = some data)
    (hact : optIsStr (data.get "action") "create_invoice" = true)
    (hsub : env.getSubscription = .ok (some s))
    (hfree : s.subscription_status = "free")
    (hcount : s.invoices_this_month = 5)
    (hmonth : s.reset_month_year = some (env.nowMonth, env.nowYear))
    (hup : env.updateConversation = .ok ()) :
    handler env event =
      (.success { conversation_id := conversation.conversation_id,
                  message := upgrade_prompt_message, invoice_ready := false,
                  usage_limit_reached := true, invoices_this_month := some 5,
                  limit := some FREE_TIER_INVOICE_LIMIT, upgrade_url := some "/pricing" },
       tr1 ++ tr2 ++ [Effect.invokeModel,
         Effect.putConversation
           { conversation with
             messages := conversation.messages ++
               [{ role := "user", content := user_message },
                { role := "assistant", content := assistant_message }],
             state := ConversationState.completed }])
    ∧ (∀ inv, Effect.putInvoice inv ∉ (handler env event).2)
    ∧ (∀ uid, Effect.incMonthlyCount uid ∉ (handler env event).2) := by
  have hcheck : check_and_reset_monthly_count env user_id = .ok (s, []) := by
    unfold check_and_reset_monthly_count
    rw [hsub]
    simp [hmonth]
  have hturn : process_conversation_turn env conversation user_message =
      .ok ((assistant_message, some data,
        (conversation.add_message "user" user_message).add_message
          "assistant" assistant_message), [Effect.invokeModel]) := by
    unfold process_conversation_turn
    rw [hbed]
    simp [hext]
  have hquota : (s.subscription_status == "pro") = false ∧
      FREE_TIER_INVOICE_LIMIT ≤ s.invoices_this_month := by
    rw [hfree, hcount]
    exact ⟨rfl, by decide⟩
  have haction : action_stage env user_id assistant_message (some data)
      ((conversation.add_message "user" user_message).add_message
        "assistant" assistant_message) =
      .error (.success
        { conversation_id := conversation.conversation_id,
          message := upgrade_prompt_message, invoice_ready := false,
          usage_limit_reached := true, invoices_this_month := some 5,
          limit := some FREE_TIER_INVOICE_LIMIT, upgrade_url := some "/pricing" },
        [Effect.putConversation
          { conversation with
            messages := conversation.messages ++
              [{ role := "user", content := user_message },
               { role := "assistant", content := assistant_message }],
            state := ConversationState.completed }]) := by
    unfold action_stage Conversation.add_message
    simp only [hact, eq_self_iff_true, if_true, hcheck]
    rw [if_pos hquota, hup]
    simp [hcount, List.append_assoc]
  have hmain : handler env event =
      (.success { conversation_id := conversation.conversation_id,
                  message := upgrade_prompt_message, invoice_ready := false,
                  usage_limit_reached := true, invoices_this_month := some 5,
                  limit := some FREE_TIER_INVOICE_LIMIT, upgrade_url := some "/pricing" },
       tr1 ++ tr2 ++ [Effect.invokeModel,
         Effect.putConversation
           { conversation with
             messages := conversation.messages ++
               [{ role := "user", content := user_message },
                { role := "assistant", content := assistant_message }],
             state := ConversationState.completed }]) := by
    simp only [handler, huser, hrl, hcs, hms, hturn, haction, List.append_assoc,
      List.cons_append, List.nil_append, List.append_nil]
  refine ⟨hmain, ?_, ?_⟩
  · intro inv hmem
    rw [hmain] at hmem
    simp only [List.mem_append, List.mem_cons] at hmem
    rcases hmem with (h1 | h2) | h3 | h3 | h3
    · obtain ⟨r, hr⟩ := rate_limit_stage_ok_effects env user_id tr1 hrl _ h1
      cases hr
    · obtain ⟨c, hc⟩ := conversation_stage_ok_only_puts env user_id event
        conversation tr2 hcs _ h2
      cases hc
    · cases h3
    · cases h3
    · simp at h3
  · intro uid hmem
    rw [hmain] at hmem
    simp only [List.mem_append, List.mem_cons] at hmem
    rcases hmem with (h1 | h2) | h3 | h3 | h3
    · obtain ⟨r, hr⟩ := rate_limit_stage_ok_effects env user_id tr1 hrl _ h1
      cases hr
    · obtain ⟨c, hc⟩ := conversation_stage_ok_only_puts env user_id event
        conversation tr2 hcs _ h2
      cases hc
    · cases h3
    · cases h3
    · simp at h3

/-! ### Claim C8 -/

/-- Effects other than the model invocation. -/
def notInvoke : Effect → Bool
  | .invokeModel => false
  | _ => true

/-- Anything persisted before the model runs is a rate-limit write or the
fresh empty conversation. -/
theorem pre_model_trace (env : Env) (user_id : String) (event : Event)
    (tr1 tr2 : List Effect) (cv : Conversation)
    (hrl : rate_limit_stage env user_id = .ok tr1)
    (hcs : conversation_stage env user_id event = .ok (cv, tr2))
    (c : Conversation)
    (hc : Effect.putConversation c ∈ ((tr1 ++ tr2).takeWhile notInvoke)) :
    c.messages = [] := by
  have hmem := mem_of_takeWhile _ _ _ hc
  rcases List.mem_append.mp hmem with h | h
  · obtain ⟨r, hr⟩ := rate_limit_stage_ok_effects env user_id tr1 hrl _ h
    cases hr
  · exact conversation_stage_ok_effects env user_id event cv tr2 hcs c h

/-- takeWhile never looks past a failing element, reassociated form. -/
theorem takeWhile_append_append_stop {α : Type} (p : α → Bool) (A B C : List α)
    (x : α) (hx : p x = false) :
    ((A ++ (B ++ x :: C)).takeWhile p) = (A ++ B).takeWhile p := by
  rw [← List.append_assoc]
  exact takeWhile_append_stop p (A ++ B) C x hx

/-- C8 amended: in every run of the handler, any conversation record
persisted before the model invocation has an empty message list, so the
user message of the turn is never durably appended before the model is
invoked — it is appended in memory only and persisted at the end of the
turn. -/
theorem c8_user_message_not_durable_before_model (env : Env) (event : Event) :
    ∀ c, Effect.putConversation c ∈ ((handler env event).2.takeWhile notInvoke) →
      c.messages = [] := by
  intro c hc
  unfold handler at hc
  split at hc
  · simp at hc
  · rename_i user_id huser
    split at hc
    · rename_i re hre
      rw [rate_limit_stage_error env user_id re hre] at hc
      simp at hc
    · rename_i tr1 hrl
      split at hc
      · rename_i resp tr hcerr
        have h0 : (resp, tr).2 = [] :=
          conversation_stage_error env user_id event (resp, tr) hcerr
        simp only at h0
        subst h0
        rw [List.append_nil] at hc
        have hmem := mem_of_takeWhile _ _ _ hc
        obtain ⟨r, hr⟩ := rate_limit_stage_ok_effects env user_id tr1 hrl _ hmem
        cases hr
      · rename_i cv tr2 hcs
        split at hc
        · exact pre_model_trace env user_id event tr1 tr2 cv hrl hcs c hc
        · rename_i user_message hum
          split at hc
          · rename_i resp tr hterr
            have h0 : (resp, tr).2 = [Effect.invokeModel] :=
              process_conversation_turn_error env cv user_message (resp, tr) hterr
            simp only at h0
            subst h0
            simp only [List.append_assoc, List.singleton_append, List.cons_append] at hc
            rw [takeWhile_append_append_stop _ _ _ _ _ rfl] at hc
            exact pre_model_trace env user_id event tr1 tr2 cv hrl hcs c hc
          · rename_i am ex conv2 tr3 htok
            have h0 : tr3 = [Effect.invokeModel] :=
              process_conversation_turn_ok env cv user_message (am, ex, conv2) tr3 htok
            subst h0
            split at hc
            · simp only [List.append_assoc, List.singleton_append, List.cons_append] at hc
              rw [takeWhile_append_append_stop _ _ _ _ _ rfl] at hc
              exact pre_model_trace env user_id event tr1 tr2 cv hrl hcs c hc
            · split at hc
              · simp only [List.append_assoc, List.singleton_append, List.cons_append] at hc
                rw [takeWhile_append_append_stop notInvoke tr1 tr2 _
                  Effect.invokeModel rfl] at hc
                exact pre_model_trace env user_id event tr1 tr2 cv hrl hcs c hc
              · simp only [List.append_assoc, List.singleton_append, List.cons_append] at hc
                rw [takeWhile_append_append_stop notInvoke tr1 tr2 _
                  Effect.invokeModel rfl] at hc
                exact pre_model_trace env user_id event tr1 tr2 cv hrl hcs c hc

/-! ### Concrete runs: counterexamples and witnesses -/

/-- A baseline environment: authenticated user, empty store, pass-through
sanitizer, a conversational model reply that parses as no JSON. -/
def envBase : Env :=
  { userId := some "user-1", now := 0, nowMonth := 1, nowYear := 2026, today := 0,
    rateMax := 100, rateWindow := 3600,
    getRateLimit := .ok none, putRateLimit := .ok (),
    getConversation := .ok none, createConversation := .ok (),
    updateConversation := .ok (), newConversationId := "conv-new",
    sanitize := fun s => .ok s, converse := .ok "Hello!",
    jsonParse := fun _ => none, parseDec := fun _ => none,
    parseDate := fun _ => none,
    getSubscription := .ok none, putSubscription := .ok (), resetCount := .ok (),
    createInvoice := .ok (), incCount := .ok (), newInvoiceId := "inv-1" }

/-- A request that starts a new conversation. -/
def eventA : Event := { conversation_id := none, message := "Hello" }

/-- A request on the existing conversation c-1. -/
def eventExisting : Event := { conversation_id := some "c-1", message := "Hello there" }

/-- C3 counterexample: with the store unreachable during the rate-limit
read, the handler returns the 500 DatabaseError response with no side
effects and no model invocation — it does not fail open. -/
theorem c3_counterexample :
    handler { envBase with getRateLimit := .error .clientError } eventA =
      (.error 500 "DatabaseError", []) := rfl

/-- C3 witness: the store failing on the rate-limit write also fails
closed. -/
theorem c3_rate_check_fails_closed_witness :
    handler { envBase with putRateLimit := .error .clientError } eventA =
      (.error 500 "DatabaseError", []) :=
  (c3_rate_check_fails_closed { envBase with putRateLimit := .error .clientError }
    eventA "user-1" rfl).2 rfl rfl

/-- An existing COMPLETED conversation owned by the caller. -/
def convCompleted : Conversation :=
  { conversation_id := "c-1", user_id := "user-1",
    state := .completed, messages := [], extracted_data := none }

/-- C4 counterexample: a no-action turn on a conversation already in the
supposedly terminal COMPLETED state is accepted and persists the
conversation in GATHERING_INFO — the transition COMPLETED to
GATHERING_INFO the claim rules out. -/
theorem c4_counterexample :
    convCompleted.state = ConversationState.completed
    ∧ handler { envBase with getConversation := .ok (some convCompleted) }
        eventExisting =
      (.success { conversation_id := "c-1", message := "Hello!",
                  invoice_ready := false },
       [Effect.putRateLimit (RateLimit.create_new "user-1" 0 3600),
        Effect.invokeModel,
        Effect.putConversation
          { conversation_id := "c-1", user_id := "user-1",
            state := ConversationState.gathering_info,
            messages := [{ role := "user", content := "Hello there" },
                         { role := "assistant", content := "Hello!" }],
            extracted_data := none }]) := ⟨rfl, rfl⟩

/-- An existing ABANDONED conversation owned by the caller. -/
def convAbandoned : Conversation :=
  { conversation_id := "c-1", user_id := "user-1",
    state := .abandoned, messages := [], extracted_data := none }

/-- C4 witness: the amended theorem applied to a turn on an ABANDONED
conversation, which likewise moves to GATHERING_INFO. -/
theorem c4_terminal_states_not_enforced_witness :
    handler { envBase with getConversation := .ok (some convAbandoned) }
        eventExisting =
      (.success { conversation_id := "c-1", message := "Hello!",
                  invoice_ready := false },
       [Effect.putRateLimit (RateLimit.create_new "user-1" 0 3600)] ++
       [Effect.invokeModel,
        Effect.putConversation
          { convAbandoned with
            messages := convAbandoned.messages ++
              [{ role := "user", content := "Hello there" },
               { role := "assistant", content := "Hello!" }],
            state := ConversationState.gathering_info }]) :=
  c4_terminal_states_not_enforced
    { envBase with getConversation := .ok (some convAbandoned) } eventExisting
    "user-1" "c-1" [Effect.putRateLimit (RateLimit.create_new "user-1" 0 3600)]
    convAbandoned "Hello there" "Hello!" rfl rfl rfl rfl rfl rfl rfl rfl rfl

/-- The structured action the model emits when an invoice is approved. -/
def createInvoiceAction : Json := Json.obj [("action", Json.str "create_invoice")]

/-- An existing GATHERING_INFO conversation owned by the caller. -/
def convGathering : Conversation :=
  { conversation_id := "c-1", user_id := "user-1",
    state := .gathering_info, messages := [], extracted_data := none }

/-- A free-tier subscription with the monthly cap already used up, counted
in the current month. -/
def subAtCap : Subscription :=
  { subscription_status := "free", invoices_this_month := 5,
    reset_month_year := some (1, 2026) }

/-- The environment of the quota-exhausted turn: the model replies with a
bare JSON object that parses to a create_invoice action. -/
def envC2 : Env :=
  { envBase with
    getConversation := .ok (some convGathering),
    getSubscription := .ok (some subAtCap),
    converse := .ok "\x7b\x7d",
    jsonParse := fun _ => some createInvoiceAction }

/-- C2 witness: the concrete 6th create_invoice turn of a free-tier user is
rejected with the upgrade prompt, the conversation is saved COMPLETED, and
the trace holds no invoice write and no counter increment. -/
theorem c2_quota_exhausted_rejects_witness :
    handler envC2 eventExisting =
      (.success { conversation_id := "c-1",
                  message := upgrade_prompt_message, invoice_ready := false,
                  usage_limit_reached := true, invoices_this_month := some 5,
                  limit := some FREE_TIER_INVOICE_LIMIT, upgrade_url := some "/pricing" },
       [Effect.putRateLimit (RateLimit.create_new "user-1" 0 3600)] ++ [] ++
       [Effect.invokeModel,
        Effect.putConversation
          { convGathering with
            messages := convGathering.messages ++
              [{ role := "user", content := "Hello there" },
               { role := "assistant", content := "\x7b\x7d" }],
            state := ConversationState.completed }]) :=
  (c2_quota_exhausted_rejects envC2 eventExisting "user-1"
    [Effect.putRateLimit (RateLimit.create_new "user-1" 0 3600)] []
    convGathering "Hello there" "\x7b\x7d" createInvoiceAction subAtCap
    rfl rfl rfl rfl rfl rfl rfl rfl rfl rfl rfl rfl).1

/-- C8 counterexample: a full successful turn on an existing conversation.
The model invocation is the second effect; the only conversation write —
the only durable copy of the user message — comes after it, so the user
message was not durably appended before the model was invoked. -/
theorem c8_counterexample :
    handler { envBase with getConversation := .ok (some convGathering) }
        eventExisting =
      (.success { conversation_id := "c-1", message := "Hello!",
                  invoice_ready := false },
       [Effect.putRateLimit (RateLimit.create_new "user-1" 0 3600),
        Effect.invokeModel,
        Effect.putConversation
          { conversation_id := "c-1", user_id := "user-1",
            state := ConversationState.gathering_info,
            messages := [{ role := "user", content := "Hello there" },
                         { role := "assistant", content := "Hello!" }],
            extracted_data := none }]) := rfl

/-- The fresh conversation record envBase would create. -/
def freshConv : Conversation :=
  { conversation_id := "conv-new", user_id := "user-1",
    state := .initiated, messages := [], extracted_data := none }

/-- C8 witness: the one conversation record persisted before the model
invocation on the new-conversation path is the fresh empty one. -/
theorem c8_user_message_not_durable_before_model_witness :
    freshConv.messages = [] :=
  c8_user_message_not_durable_before_model envBase eventA freshConv
    (by
      have htr : ((handler envBase eventA).2.takeWhile notInvoke) =
          [Effect.putRateLimit (RateLimit.create_new "user-1" 0 3600),
           Effect.putConversation freshConv] := rfl
      rw [htr]
      exact List.mem_cons_of_mem _ (List.mem_cons_self _ _))

/-- An existing conversation owned by a different user. -/
def convForeign : Conversation :=
  { conversation_id := "c-1", user_id := "user-2",
    state := .gathering_info, messages := [], extracted_data := none }

/-- C9 witness: the concrete foreign-conversation request gets 403 and only
the rate-limit write happened. -/
theorem c9_foreign_conversation_forbidden_witness :
    handler { envBase with getConversation := .ok (some convForeign) }
        eventExisting =
      (.error 403 "Forbidden",
       [Effect.putRateLimit (RateLimit.create_new "user-1" 0 3600)]) :=
  (c9_foreign_conversation_forbidden
    { envBase with getConversation := .ok (some convForeign) } eventExisting
    "user-1" "c-1" [Effect.putRateLimit (RateLimit.create_new "user-1" 0 3600)]
    convForeign rfl rfl rfl rfl (by decide)).1

/-- A request with no conversation id and a whitespace-only message. -/
def eventBlank : Event := { conversation_id := none, message := "   " }

/-- C10 witness: the concrete blank-message request gets the 400 validation
error after the fresh INITIATED conversation was already persisted. -/
theorem c10_create_before_empty_message_check_witness :
    handler envBase eventBlank =
      (.error 400 "ValidationError",
       [Effect.putRateLimit (RateLimit.create_new "user-1" 0 3600)] ++
       [Effect.putConversation
         { conversation_id := "conv-new", user_id := "user-1",
           state := .initiated, messages := [], extracted_data := none }]) :=
  c10_create_before_empty_message_check envBase eventBlank "user-1"
    [Effect.putRateLimit (RateLimit.create_new "user-1" 0 3600)]
    rfl rfl rfl rfl rfl
